import Mathlib

/-!
Shallow embedding of the page-cache and extendible-hash core:
`src/buffer/lru_replacer.cpp`, `src/buffer/buffer_pool_manager_instance.cpp`,
`src/buffer/parallel_buffer_pool_manager.cpp`,
`src/storage/page/hash_table_bucket_page.cpp` (the `<int, int, IntComparator>`
instantiation), and `src/container/hash/extendible_hash_table.cpp`.

Machine integers: `page_id_t` (int32_t) is modelled by `Int` (no allocation in
the claims gets anywhere near the 2^31 boundary, and C++ signed overflow is
undefined behaviour rather than wrap); `frame_id_t` indices and sizes by `Nat`.
Page byte buffers are abstracted to a single `Nat` content value; the disk
manager is a write log with `diskRead` returning the most recent write (fresh
pages read as zero). `std::unordered_map::operator[]` default-inserts a
value-initialized mapped value (frame id 0) when the key is absent; this is
modelled explicitly by `ptSubscript`, because several source functions rely on
(or are broken by) that behaviour.
-/

namespace BusTub

/-- Sentinel `INVALID_PAGE_ID`. -/
def INVALID_PAGE_ID : Int := -1

/-- State of `LRUReplacer` (`lru_replacer.cpp`): `lru_` is the intrusive list,
front = most recently unpinned, back = victim; `lru_map_` is membership only,
so it is represented by list membership. -/
structure LRUReplacer where
  max_page_nums : Nat
  lru : List Nat
deriving Repr, DecidableEq

/-- `LRUReplacer::Victim`: pop the back of the list, or fail when empty. -/
def LRUReplacer.Victim (r : LRUReplacer) : Option Nat × LRUReplacer :=
  match r.lru.getLast? with
  | none => (none, r)
  | some f => (some f, { r with lru := r.lru.dropLast })

/-- `LRUReplacer::Pin`: remove the frame if tracked, no-op otherwise. -/
def LRUReplacer.Pin (r : LRUReplacer) (frame_id : Nat) : LRUReplacer :=
  if r.lru.isEmpty then r
  else if frame_id ∈ r.lru then { r with lru := r.lru.erase frame_id }
  else r

/-- `LRUReplacer::Unpin`: push at the front unless full or already tracked. -/
def LRUReplacer.Unpin (r : LRUReplacer) (frame_id : Nat) : LRUReplacer :=
  if r.max_page_nums ≤ r.lru.length then r
  else if frame_id ∈ r.lru then r
  else { r with lru := frame_id :: r.lru }

/-- `LRUReplacer::Size`. -/
def LRUReplacer.Size (r : LRUReplacer) : Nat := r.lru.length

/-- One frame of the buffer pool (`Page` object): id, pin count, dirty bit and
abstracted data content. -/
structure Page where
  page_id : Int
  pin_count : Int
  is_dirty : Bool
  data : Nat
deriving Repr, DecidableEq

/-- A freshly constructed / reset frame: invalid id, pin 0, clean, zeroed. -/
def Page.reset : Page :=
  { page_id := INVALID_PAGE_ID, pin_count := 0, is_dirty := false, data := 0 }

/-- `DiskManager::ReadPage` against a write log: most recent write wins,
never-written pages read as zero. -/
def diskRead (writes : List (Int × Nat)) (pid : Int) : Nat :=
  match writes.find? (fun e => e.1 == pid) with
  | some e => e.2
  | none => 0

/-- `page_table_.find(...)`: lookup without insertion. -/
def ptFind (pt : List (Int × Nat)) (pid : Int) : Option Nat :=
  (pt.find? (fun e => e.1 == pid)).map (fun e => e.2)

/-- `page_table_.erase(pid)`. -/
def ptErase (pt : List (Int × Nat)) (pid : Int) : List (Int × Nat) :=
  pt.filter (fun e => e.1 ≠ pid)

/-- `page_table_[pid]` read: returns the mapped frame, default-inserting the
value-initialized frame id 0 when the key is absent (unordered_map semantics). -/
def ptSubscript (pt : List (Int × Nat)) (pid : Int) : Nat × List (Int × Nat) :=
  match ptFind pt pid with
  | some f => (f, pt)
  | none => (0, pt ++ [(pid, 0)])

/-- `page_table_[pid] = f` assignment. -/
def ptAssign (pt : List (Int × Nat)) (pid : Int) (f : Nat) : List (Int × Nat) :=
  match ptFind pt pid with
  | some _ => pt.map (fun e => if e.1 = pid then (pid, f) else e)
  | none => pt ++ [(pid, f)]

/-- `pages_[i]` read (indices used by the source are in range; out-of-range
reads, which C++ leaves undefined, default to a reset frame). -/
def getPage (ps : List Page) (i : Nat) : Page := ps.getD i Page.reset

/-- `pages_[i] = p` write. -/
def setPage (ps : List Page) (i : Nat) (p : Page) : List Page := ps.set i p

/-- State of one `BufferPoolManagerInstance`, together with the observable
effects on its collaborators: the disk write log and the log of
`DeallocatePage` invocations. -/
structure BPMI where
  pool_size : Nat
  num_instances : Nat
  instance_index : Nat
  next_page_id : Int
  pages : List Page
  page_table : List (Int × Nat)
  free_list : List Nat
  replacer : LRUReplacer
  disk_writes : List (Int × Nat)
  dealloc_log : List Int
deriving Repr, DecidableEq

/-- The `BufferPoolManagerInstance` constructor: `next_page_id_` starts at
`instance_index`, every frame starts in the free list, the replacer is empty. -/
def mkBPMI (pool_size num_instances instance_index : Nat) : BPMI :=
  { pool_size := pool_size
    num_instances := num_instances
    instance_index := instance_index
    next_page_id := instance_index
    pages := List.replicate pool_size Page.reset
    page_table := []
    free_list := List.range pool_size
    replacer := { max_page_nums := pool_size, lru := [] }
    disk_writes := []
    dealloc_log := [] }

/-- `BufferPoolManagerInstance::AllocatePage`: return `next_page_id_`, then
advance it by `num_instances_`. (`ValidatePageId` asserts
`page_id % num_instances == instance_index`; that property is proved below.) -/
def BPMI.AllocatePage (s : BPMI) : Int × BPMI :=
  (s.next_page_id, { s with next_page_id := s.next_page_id + s.num_instances })

/-- `BufferPoolManagerInstance::FlushPgImp`, exactly as written: a subscript
read of the page table (default-inserting when absent), then `erase`, then
`WritePage` of the indexed frame's bytes; unconditionally returns true and
never touches `is_dirty_`. -/
def BPMI.FlushPg (s : BPMI) (pid : Int) : Bool × BPMI :=
  let fp := ptSubscript s.page_table pid
  let pt2 := ptErase fp.2 pid
  let page := getPage s.pages fp.1
  (true, { s with page_table := pt2, disk_writes := (pid, page.data) :: s.disk_writes })

/-- `BufferPoolManagerInstance::NewPgImp`: allocate an id first, then take a
frame from the free list, else a replacer victim (writing it back when dirty
and erasing its old mapping — note the source installs the new page-table
entry only in the free-list branch), else fail. Returns the new page id and
frame index on success. -/
def BPMI.NewPg (s : BPMI) : Option (Int × Nat) × BPMI :=
  let a := s.AllocatePage
  let pid := a.1
  let s1 := a.2
  match s1.free_list with
  | frame_id :: rest =>
      let pt := ptAssign s1.page_table pid frame_id
      let data := diskRead s1.disk_writes pid
      let page : Page := { page_id := pid, pin_count := 1, is_dirty := false, data := data }
      (some (pid, frame_id),
       { s1 with free_list := rest, page_table := pt, pages := setPage s1.pages frame_id page })
  | [] =>
      match s1.replacer.Victim with
      | (some frame_id, rep) =>
          let rp := getPage s1.pages frame_id
          let writes :=
            if rp.is_dirty then (rp.page_id, rp.data) :: s1.disk_writes else s1.disk_writes
          let pt := ptErase s1.page_table rp.page_id
          let data := diskRead writes pid
          let page : Page := { page_id := pid, pin_count := 1, is_dirty := false, data := data }
          (some (pid, frame_id),
           { s1 with replacer := rep, disk_writes := writes, page_table := pt,
                     pages := setPage s1.pages frame_id page })
      | (none, rep) => (none, { s1 with replacer := rep })

/-- `BufferPoolManagerInstance::FetchPgImp`: if resident, increment the pin
count and return (the source performs no replacer call here); otherwise take a
free frame, else a victim (write-back when dirty, remap), read the page from
disk, pin it; else fail. -/
def BPMI.FetchPg (s : BPMI) (pid : Int) : Option Nat × BPMI :=
  match ptFind s.page_table pid with
  | some frame_id =>
      let page := getPage s.pages frame_id
      (some frame_id,
       { s with pages := setPage s.pages frame_id { page with pin_count := page.pin_count + 1 } })
  | none =>
    match s.free_list with
    | frame_id :: rest =>
        let pt := ptAssign s.page_table pid frame_id
        let data := diskRead s.disk_writes pid
        (some frame_id,
         { s with free_list := rest, page_table := pt,
                  pages := setPage s.pages frame_id
                    { page_id := pid, pin_count := 1, is_dirty := false, data := data } })
    | [] =>
      match s.replacer.Victim with
      | (some frame_id, rep) =>
          let rp := getPage s.pages frame_id
          let writes :=
            if rp.is_dirty then (rp.page_id, rp.data) :: s.disk_writes else s.disk_writes
          let pt := ptAssign (ptErase s.page_table rp.page_id) pid frame_id
          let data := diskRead writes pid
          (some frame_id,
           { s with replacer := rep, disk_writes := writes, page_table := pt,
                    pages := setPage s.pages frame_id
                      { page_id := pid, pin_count := 1, is_dirty := false, data := data } })
      | (none, rep) => (none, { s with replacer := rep })

/-- `BufferPoolManagerInstance::DeletePgImp`: `DeallocatePage` is invoked
first, unconditionally; then not-resident returns true, pinned returns false,
otherwise the entry is erased, the frame reset and appended to the free list. -/
def BPMI.DeletePg (s : BPMI) (pid : Int) : Bool × BPMI :=
  let s0 := { s with dealloc_log := pid :: s.dealloc_log }
  match ptFind s0.page_table pid with
  | none => (true, s0)
  | some frame_id =>
      let page := getPage s0.pages frame_id
      if page.pin_count > 0 then (false, s0)
      else
        (true, { s0 with page_table := ptErase s0.page_table pid,
                         pages := setPage s0.pages frame_id Page.reset,
                         free_list := s0.free_list ++ [frame_id] })

/-- `BufferPoolManagerInstance::UnpinPgImp`, exactly as written: a subscript
read of the page table (default-inserting when absent); return false when the
indexed frame's pin count is ≤ 0; otherwise admit the frame to the replacer
(without decrementing the pin count) and OR the dirty flag. -/
def BPMI.UnpinPg (s : BPMI) (pid : Int) (is_dirty : Bool) : Bool × BPMI :=
  let fp := ptSubscript s.page_table pid
  let s1 := { s with page_table := fp.2 }
  let page := getPage s1.pages fp.1
  if page.pin_count ≤ 0 then (false, s1)
  else
    let s2 := { s1 with replacer := s1.replacer.Unpin fp.1 }
    let s3 :=
      if is_dirty then { s2 with pages := setPage s2.pages fp.1 { page with is_dirty := true } }
      else s2
    (true, s3)

/-- The claim-C5 quantity: `|free_list| + |page_table| = pool_size`. -/
abbrev sizeInv (s : BPMI) : Prop :=
  s.free_list.length + s.page_table.length = s.pool_size

/-- Placeholder shard used when indexing out of range (never reached for the
in-range indices the source uses). -/
def defaultBPMI : BPMI := mkBPMI 0 1 0

/-- State of `ParallelBufferPoolManager`: the round-robin cursor
`next_instance_` and the shard instances. -/
structure PBPM where
  num_instances : Nat
  pool_size : Nat
  next_instance : Nat
  instances : List BPMI
deriving Repr, DecidableEq

/-- The `ParallelBufferPoolManager` constructor. -/
def mkPBPM (num_instances pool_size : Nat) : PBPM :=
  { num_instances := num_instances
    pool_size := pool_size
    next_instance := 0
    instances := (List.range num_instances).map (fun i => mkBPMI pool_size num_instances i) }

/-- The loop body of `ParallelBufferPoolManager::NewPgImp`: each iteration
calls `NewPage` on the shard at the cursor, stores the (possibly mutated)
shard back, advances the cursor by one mod N, and returns on success. -/
def PBPM.newPgLoop (p : PBPM) : Nat → Option (Int × Nat) × PBPM
  | 0 => (none, p)
  | fuel + 1 =>
      let inst := p.instances.getD p.next_instance defaultBPMI
      let r := inst.NewPg
      let p1 : PBPM :=
        { p with instances := p.instances.set p.next_instance r.2,
                 next_instance := (p.next_instance + 1) % p.num_instances }
      match r.1 with
      | some pr => (some pr, p1)
      | none => p1.newPgLoop fuel

/-- `ParallelBufferPoolManager::NewPgImp`: run the loop for `num_instances_`
iterations. -/
def PBPM.NewPg (p : PBPM) : Option (Int × Nat) × PBPM :=
  p.newPgLoop p.num_instances

/-- Spec-side description of the scan order: the result of the first shard
(visited at cursor, cursor+1, … mod N) whose `NewPage` succeeds, over the
shard states as they were when visited (each shard is visited at most once per
call, so this is its pre-call state). -/
def scanResult (insts : List BPMI) (N : Nat) : Nat → Nat → Option (Int × Nat)
  | _, 0 => none
  | cur, fuel + 1 =>
      match ((insts.getD cur defaultBPMI).NewPg).1 with
      | some r => some r
      | none => scanResult insts N ((cur + 1) % N) fuel

/-- Spec-side count of shards tried by the scan: the index of the first
success plus one, or the full fuel when every shard fails. -/
def scanAttempts (insts : List BPMI) (N : Nat) : Nat → Nat → Nat
  | _, 0 => 0
  | cur, fuel + 1 =>
      match ((insts.getD cur defaultBPMI).NewPg).1 with
      | some _ => 1
      | none => 1 + scanAttempts insts N ((cur + 1) % N) fuel

/-- `k`-fold iteration of `AllocatePage`: `(s.allocIter k).1` is the id
returned by the k-th call (0-based) starting from state `s`. -/
def BPMI.allocIter (s : BPMI) : Nat → Int × BPMI
  | 0 => s.AllocatePage
  | k + 1 => (s.AllocatePage.2).allocIter k

/-- `HashTableBucketPage<int, int, IntComparator>`
(`hash_table_bucket_page.cpp`): the `occupied_` and `readable_` char arrays
(bytes, all-zero when the page comes back zeroed from disk) and the
`array_` of (key, value) slots. `BUCKET_ARRAY_SIZE` is `array.length`. -/
structure Bucket where
  occupied : List Nat
  readable : List Nat
  array : List (Int × Int)
deriving Repr, DecidableEq

/-- `IsOccupied`: `occupied_[idx / 8] & (0x1 << idx % 8)` as a boolean. -/
def Bucket.IsOccupied (b : Bucket) (i : Nat) : Bool :=
  decide ((b.occupied.getD (i / 8) 0) &&& (1 <<< (i % 8)) ≠ 0)

/-- `SetOccupied`, exactly as written: the source evaluates
`occupied_[idx / 8] | (0x1 << idx % 8)` and discards the result, so the state
is unchanged. -/
def Bucket.SetOccupied (b : Bucket) (_ : Nat) : Bucket := b

/-- `IsReadable`: `readable_[idx / 8] & (0x1 << idx % 8)` as a boolean. -/
def Bucket.IsReadable (b : Bucket) (i : Nat) : Bool :=
  decide ((b.readable.getD (i / 8) 0) &&& (1 <<< (i % 8)) ≠ 0)

/-- `SetReadable`, exactly as written: the OR expression is evaluated but
never assigned, so the state is unchanged. -/
def Bucket.SetReadable (b : Bucket) (_ : Nat) : Bucket := b

/-- `RemoveAt`, exactly as written: `occupied_[idx / 8] & (0x0 << idx % 8)` is
evaluated and discarded, so the state is unchanged. -/
def Bucket.RemoveAt (b : Bucket) (_ : Nat) : Bucket := b

/-- `KeyAt`. -/
def Bucket.KeyAt (b : Bucket) (i : Nat) : Int := (b.array.getD i (0, 0)).1

/-- `ValueAt`. -/
def Bucket.ValueAt (b : Bucket) (i : Nat) : Int := (b.array.getD i (0, 0)).2

/-- `array_[idx] = make_pair(key, value)`. -/
def Bucket.setKV (b : Bucket) (i : Nat) (kv : Int × Int) : Bucket :=
  { b with array := b.array.set i kv }

/-- `IsFull`, exactly as written: every bitmap byte must satisfy
`byte - '0' == 255` in both arrays (the source subtracts the ASCII digit
zero), scanning indices `0 ≤ index < (BUCKET_ARRAY_SIZE - 1) / 8 + 1`. -/
def Bucket.IsFull (b : Bucket) : Bool :=
  (List.range ((b.array.length - 1) / 8 + 1)).all
    (fun index =>
      ((b.occupied.getD index 0 : Int) - 48 == 255) &&
      ((b.readable.getD index 0 : Int) - 48 == 255))

/-- The scan loop of `Insert`: at each index, when the slot is not occupied or
occupied-but-not-readable, call the (non-assigning) bit setters and store the
pair; then return false when the slot now holds the identical pair and is
occupied; `cmp(key1, key2) == 0` for `IntComparator` is integer equality. -/
def Bucket.insertLoop (key value : Int) : Bucket → Nat → Nat → Bool × Bucket
  | b, _, 0 => (true, b)
  | b, i, fuel + 1 =>
      let b1 :=
        if ¬ b.IsOccupied i ∨ (b.IsOccupied i ∧ ¬ b.IsReadable i) then
          (((b.SetOccupied i).SetReadable i).setKV i (key, value))
        else b
      if b1.IsOccupied i ∧ key = b1.KeyAt i ∧ value = b1.ValueAt i then (false, b1)
      else Bucket.insertLoop key value b1 (i + 1) fuel

/-- `HASH_TABLE_BUCKET_TYPE::Insert`: fail when `IsFull()`, otherwise run the
scan loop over all `BUCKET_ARRAY_SIZE` indices and return true when it
completes. -/
def Bucket.Insert (b : Bucket) (key value : Int) : Bool × Bucket :=
  if b.IsFull then (false, b)
  else Bucket.insertLoop key value b 0 b.array.length

/-- `HASH_TABLE_BUCKET_TYPE::GetValue`, exactly as written: the body is
`return false;` — nothing is appended to the result vector. -/
def Bucket.GetValue (_ : Bucket) (_ : Int) (result : List Int) : Bool × List Int :=
  (false, result)

/-- The logical state of `ExtendibleHashTable<int, int, IntComparator>`
(`extendible_hash_table.cpp`): the directory page image (global depth, local
depths, bucket page ids) and the store of bucket pages reachable through the
buffer pool, keyed by page id. Pin-count bookkeeping against the buffer pool
does not affect the values any operation returns and is elided here. -/
structure HashTable where
  global_depth : Nat
  local_depths : List Nat
  bucket_page_ids : List Int
  directory_page_id : Int
  store : List (Int × Bucket)
deriving Repr, DecidableEq

/-- Bucket-page lookup through `FetchBucketPage` (page id → bucket image). -/
def storeGet (st : List (Int × Bucket)) (pid : Int) : Bucket :=
  ((st.find? (fun e => e.1 == pid)).map (fun e => e.2)).getD { occupied := [], readable := [], array := [] }

/-- Writing a mutated bucket page back (the C++ mutates the frame in place). -/
def storeSet (st : List (Int × Bucket)) (pid : Int) (b : Bucket) : List (Int × Bucket) :=
  st.map (fun e => if e.1 = pid then (pid, b) else e)

/-- Modelled from the spec: `HashTableDirectoryPage::GetGlobalDepthMask`
(`hash_table_directory_page.cpp` is not under src/) — "global_depth_mask =
size() − 1" with "size() = 1 << global_depth". -/
def HashTable.GetGlobalDepthMask (t : HashTable) : Nat :=
  (1 <<< t.global_depth) - 1

/-- Modelled from the spec: `HashTableDirectoryPage::GetLocalDepth` — the
`local_depths[i]` accessor (the directory page source is not under src/). -/
def HashTable.GetLocalDepth (t : HashTable) (i : Nat) : Nat :=
  t.local_depths.getD i 0

/-- Modelled from the spec: `HashTableDirectoryPage::IncrGlobalDepth` —
"doubles the directory by copying entries [0, size) to [size, 2·size)" and
increments the global depth (the directory page source is not under src/). -/
def HashTable.IncrGlobalDepth (t : HashTable) : HashTable :=
  let size := 1 <<< t.global_depth
  { t with global_depth := t.global_depth + 1
           local_depths := t.local_depths.take size ++ t.local_depths.take size
           bucket_page_ids := t.bucket_page_ids.take size ++ t.bucket_page_ids.take size }

/-- `HASH_TABLE_TYPE::KeyToDirectoryIndex`: `Hash(key) & GetGlobalDepthMask()`;
the injected hash function is a parameter. -/
def HashTable.KeyToDirectoryIndex (hash : Int → Nat) (t : HashTable) (key : Int) : Nat :=
  hash key &&& t.GetGlobalDepthMask

/-- `HASH_TABLE_TYPE::KeyToPageId`: `bucket_page_ids_[KeyToDirectoryIndex(key)]`. -/
def HashTable.KeyToPageId (hash : Int → Nat) (t : HashTable) (key : Int) : Int :=
  t.bucket_page_ids.getD (HashTable.KeyToDirectoryIndex hash t key) 0

/-- `HASH_TABLE_TYPE::GetValue`: fetch the directory, route to the bucket
page, and return `bucket.GetValue` on the caller's result vector. -/
def HashTable.GetValue (hash : Int → Nat) (t : HashTable) (key : Int) (result : List Int) :
    Bool × List Int :=
  let pid := HashTable.KeyToPageId hash t key
  (storeGet t.store pid).GetValue key result

/-- `HASH_TABLE_TYPE::SplitInsert`, exactly as written: `return false;` with
no state change. -/
def HashTable.SplitInsert (t : HashTable) (_ _ : Int) : Bool × HashTable :=
  (false, t)

/-- `HASH_TABLE_TYPE::Insert`: when the target's local depth is below the
global depth, try `bucket.Insert`; on success return true, otherwise bump the
local depth in place and call `SplitInsert`. When the depths are equal, double
the directory, bump the local depth, and call `SplitInsert`. (The source falls
off the end of the function when local depth exceeds global depth — an
unreachable branch for well-formed directories — modelled as a false return
with no state change.) -/
def HashTable.Insert (hash : Int → Nat) (t : HashTable) (key value : Int) : Bool × HashTable :=
  let dir_index := HashTable.KeyToDirectoryIndex hash t key
  let local_depth := t.GetLocalDepth dir_index
  let global_depth := t.global_depth
  if local_depth < global_depth then
    let pid := HashTable.KeyToPageId hash t key
    let r := (storeGet t.store pid).Insert key value
    if r.1 then (true, { t with store := storeSet t.store pid r.2 })
    else
      let t1 := { t with local_depths := t.local_depths.set dir_index (t.GetLocalDepth dir_index + 1) }
      t1.SplitInsert key value
  else if local_depth = global_depth then
    let t1 := t.IncrGlobalDepth
    let t2 := { t1 with local_depths := t1.local_depths.set dir_index (t1.GetLocalDepth dir_index + 1) }
    t2.SplitInsert key value
  else (false, t)

/-- The identity-style injected hash used for concrete scenarios. -/
def idHash (k : Int) : Nat := k.toNat

/-- Concrete scenario: pool of one frame holding page 5 with pin count 2,
clean (reachable by new_page of page 5 followed by fetch_page 5 on a
single-frame instance). -/
def sUnpin : BPMI :=
  { pool_size := 1, num_instances := 1, instance_index := 0, next_page_id := 6
    pages := [{ page_id := 5, pin_count := 2, is_dirty := false, data := 0 }]
    page_table := [(5, 0)], free_list := []
    replacer := { max_page_nums := 1, lru := [] }
    disk_writes := [], dealloc_log := [] }

/-- Concrete scenario: pool of one frame holding page 5 with pin count 1 and
the dirty bit set, data content 42. -/
def sFlushDirty : BPMI :=
  { pool_size := 1, num_instances := 1, instance_index := 0, next_page_id := 6
    pages := [{ page_id := 5, pin_count := 1, is_dirty := true, data := 42 }]
    page_table := [(5, 0)], free_list := []
    replacer := { max_page_nums := 1, lru := [] }
    disk_writes := [], dealloc_log := [] }

/-- State after `new_page()` on a fresh single-frame instance: page 0 pinned
in frame 0, free list empty. -/
def stAfterNew : BPMI := ((mkBPMI 1 1 0).NewPg).2

/-- State after `new_page(); unpin_page(0, false)` on a fresh single-frame
instance. -/
def stAfterUnpin : BPMI := (stAfterNew.UnpinPg 0 false).2

/-- State after `new_page(); unpin_page(0, false); fetch_page(0)` on a fresh
single-frame instance. -/
def stAfterFetch : BPMI := (stAfterUnpin.FetchPg 0).2

/-- Concrete scenario: pool of one frame holding page 0 with pin count 1
(reachable by a single new_page on a fresh single-frame instance). -/
def sPinnedDel : BPMI :=
  { pool_size := 1, num_instances := 1, instance_index := 0, next_page_id := 1
    pages := [{ page_id := 0, pin_count := 1, is_dirty := false, data := 0 }]
    page_table := [(0, 0)], free_list := []
    replacer := { max_page_nums := 1, lru := [] }
    disk_writes := [], dealloc_log := [] }

/-- Concrete scenario: a single-frame instance whose only frame is pinned and
whose replacer is empty, so `new_page` can find no victim (reachable by
new_page with the pin held). -/
def sNoVictim : BPMI :=
  { pool_size := 1, num_instances := 1, instance_index := 0, next_page_id := 1
    pages := [{ page_id := 0, pin_count := 1, is_dirty := false, data := 0 }]
    page_table := [(0, 0)], free_list := []
    replacer := { max_page_nums := 1, lru := [] }
    disk_writes := [], dealloc_log := [] }

/-- Shard 0 of the parallel counterexample: single frame, page 0 pinned, no
victim available (its `new_page` fails); `next_page_id` is 2 after the one
allocation it has served with `num_instances = 2`. -/
def shardFull : BPMI :=
  { pool_size := 1, num_instances := 2, instance_index := 0, next_page_id := 2
    pages := [{ page_id := 0, pin_count := 1, is_dirty := false, data := 0 }]
    page_table := [(0, 0)], free_list := []
    replacer := { max_page_nums := 1, lru := [] }
    disk_writes := [], dealloc_log := [] }

/-- Parallel pool with two shards at cursor 0: the shard at the cursor is
full (its `new_page` fails) and shard 1 is fresh (its `new_page` succeeds). -/
def pCursor : PBPM :=
  { num_instances := 2, pool_size := 1, next_instance := 0
    instances := [shardFull, mkBPMI 1 2 1] }

/-- A fresh two-shard parallel pool with one frame per shard. -/
def pFresh : PBPM := mkPBPM 2 1

/-- An empty two-slot bucket page as it comes back zeroed from disk. -/
def bkt0 : Bucket :=
  { occupied := [0], readable := [0], array := [(0, 0), (0, 0)] }

/-- An empty four-slot bucket page as it comes back zeroed from disk. -/
def bktEmpty4 : Bucket :=
  { occupied := [0], readable := [0], array := [(0, 0), (0, 0), (0, 0), (0, 0)] }

/-- A hash table state right after the constructor plus one bucket: global
depth 1 (as the constructor sets), directory slots both pointing at bucket
page 2 with local depth 0, and the empty bucket page 2 in the pool. -/
def tbl0 : HashTable :=
  { global_depth := 1, local_depths := [0, 0], bucket_page_ids := [2, 2]
    directory_page_id := 1, store := [(2, bktEmpty4)] }

/-- C1. The claim fails on the code: on a pool whose single frame holds page 5
with pin count 2, `unpin_page(5, false)` leaves the pin count at 2 (the source
never decrements `pin_count_`) and still admits frame 0 to the replacer even
though the count did not reach zero; and on a fresh pool, unpinning the
non-resident page 7 does change state — the `page_table_[page_id]` subscript
default-inserts the entry (7, 0). -/
theorem unpin_page_divergence :
    BPMI.UnpinPg sUnpin 5 false =
      (true, { sUnpin with replacer := { max_page_nums := 1, lru := [0] } }) ∧
    (BPMI.UnpinPg (mkBPMI 1 1 0) 7 false).2.page_table = [(7, 0)] := by
  decide

/-- C2. The claim fails on the code: on a pool whose single frame holds the
dirty page 5 (content 42, pin 1), `flush_page(5)` does write the bytes through
the disk manager but erases the page-table entry (residency changes), leaves
`is_dirty` set, and a flush of the non-resident page 9 returns true instead of
false. -/
theorem flush_page_divergence :
    BPMI.FlushPg sFlushDirty 5 =
      (true, { sFlushDirty with page_table := [], disk_writes := [(5, 42)] }) ∧
    (BPMI.FlushPg sFlushDirty 5).2.pages = [{ page_id := 5, pin_count := 1, is_dirty := true, data := 42 }] ∧
    (BPMI.FlushPg (mkBPMI 1 1 0) 9).1 = true := by
  decide

/-- C3. The claim fails on the code: inserting (1, 5) into an empty two-slot
bucket returns true, but no occupied or readable bit is stored (`SetOccupied`
and `SetReadable` evaluate an OR expression without assigning it), and the
pair is written into every scanned slot rather than exactly the first
non-readable one. -/
theorem bucket_insert_divergence :
    Bucket.Insert bkt0 1 5 =
      (true, { occupied := [0], readable := [0], array := [(1, 5), (1, 5)] }) ∧
    (Bucket.Insert bkt0 1 5).2.IsReadable 0 = false ∧
    (Bucket.Insert bkt0 1 5).2.IsOccupied 0 = false := by
  decide

/-- C4. The claim fails on the code: on a table at global depth 1 with an
empty bucket page, `insert(0, 7)` returns true, yet the subsequent
`get_value(0)` appends nothing to its output vector and returns false —
`HASH_TABLE_BUCKET_TYPE::GetValue` is a stub whose body is `return false;`. -/
theorem hash_get_value_divergence :
    (HashTable.Insert idHash tbl0 0 7).1 = true ∧
    HashTable.GetValue idHash (HashTable.Insert idHash tbl0 0 7).2 0 [] = (false, []) := by
  decide

/-- C5. The claim fails on the code: on a fresh single-frame instance the
free-list/page-table balance holds initially and after `new_page`, but
`flush_page(0)` erases the page-table entry without returning the frame to the
free list, so `|free_list| + |page_table|` drops to 0 ≠ pool_size = 1. -/
theorem free_list_invariant_divergence :
    sizeInv (mkBPMI 1 1 0) ∧ sizeInv stAfterNew ∧ ¬ sizeInv (BPMI.FlushPg stAfterNew 0).2 := by
  decide

/-- C6. The claim fails on the code: after `new_page()` (page 0 pinned with
count 1) followed by `unpin_page(0, false)`, frame 0 sits in the replacer
while its pin count is still 1 > 0; and `fetch_page(0)` of the resident page
then increments the pin count to 2 but does not remove the frame from the
replacer (the source's resident branch never calls `replacer_->Pin`). -/
theorem replacer_invariant_divergence :
    (getPage stAfterUnpin.pages 0).pin_count = 1 ∧
    stAfterUnpin.replacer.lru = [0] ∧
    (getPage stAfterFetch.pages 0).pin_count = 2 ∧
    stAfterFetch.replacer.lru = [0] := by
  decide

/-- C7. Counterexample to the claim as stated: deleting the resident pinned
page 0 does return false and leaves the page table, pin count and dirty bit
alone, but `DeallocatePage` IS invoked for it — the source calls it
unconditionally before the residency and pin checks, so the deallocation log
grows from [] to [0]. -/
theorem delete_page_deallocates_counterexample :
    (BPMI.DeletePg sPinnedDel 0).1 = false ∧
    sPinnedDel.dealloc_log = [] ∧
    (BPMI.DeletePg sPinnedDel 0).2.dealloc_log = [0] := by
  decide

/-- C7 (amended): for every state in which `page_id` is resident with a
positive pin count, `delete_page(page_id)` returns false and leaves the page
table, frames (hence pin count and dirty bit), free list and replacer
unchanged — but `deallocate_page` is invoked for the page id (before the pin
check), which is the only state change. -/
theorem delete_page_pinned_amended (s : BPMI) (pid : Int) (fid : Nat)
    (hres : ptFind s.page_table pid = some fid)
    (hpin : 0 < (getPage s.pages fid).pin_count) :
    s.DeletePg pid = (false, { s with dealloc_log := pid :: s.dealloc_log }) := by
  simp only [BPMI.DeletePg, hres, hpin]
  simp [hpin]

/-- Witness for C7's amended theorem at the concrete pinned state. -/
theorem delete_page_pinned_amended_witness :
    BPMI.DeletePg sPinnedDel 0 = (false, { sPinnedDel with dealloc_log := [0] }) :=
  delete_page_pinned_amended sPinnedDel 0 0 (by decide) (by decide)

/-- Helper: the id returned by the k-th `AllocatePage` call from state `s` is
`next_page_id + k * num_instances`. -/
theorem allocIter_fst (k : Nat) (s : BPMI) :
    (s.allocIter k).1 = s.next_page_id + (k : Int) * (s.num_instances : Int) := by
  induction k generalizing s with
  | zero => simp [BPMI.allocIter, BPMI.AllocatePage]
  | succ k ih =>
      rw [show (BPMI.allocIter s (k + 1)).1 = ((s.AllocatePage.2).allocIter k).1 from rfl,
        ih s.AllocatePage.2]
      simp only [BPMI.AllocatePage]
      push_cast
      ring

/-- C9. For an instance constructed with `num_instances` and
`instance_index < num_instances`, the k-th `allocate_page` call (k = 0, 1, …)
returns `instance_index + k * num_instances`, and that id satisfies
`id mod num_instances == instance_index` (the `ValidatePageId` assertion). -/
theorem allocate_page_arithmetic (pool num idx k : Nat) (h : idx < num) :
    (BPMI.allocIter (mkBPMI pool num idx) k).1 = (idx : Int) + (k : Int) * (num : Int) ∧
    (BPMI.allocIter (mkBPMI pool num idx) k).1 % (num : Int) = (idx : Int) := by
  have h1 : (BPMI.allocIter (mkBPMI pool num idx) k).1 = (idx : Int) + (k : Int) * (num : Int) := by
    have := allocIter_fst k (mkBPMI pool num idx)
    simpa [mkBPMI] using this
  refine ⟨h1, ?_⟩
  rw [h1, mul_comm, Int.add_mul_emod_self_left]
  exact Int.emod_eq_of_lt (by positivity) (by exact_mod_cast h)

/-- Witness for C9 at pool 1, three instances, index 2, fifth call. -/
theorem allocate_page_arithmetic_witness :
    (BPMI.allocIter (mkBPMI 1 3 2) 4).1 = (2 : Int) + (4 : Int) * (3 : Int) ∧
    (BPMI.allocIter (mkBPMI 1 3 2) 4).1 % (3 : Int) = (2 : Int) := by
  have h := allocate_page_arithmetic 1 3 2 4 (by decide)
  exact_mod_cast h

/-- C10. When the free list is empty and the replacer tracks no frame,
`new_page` returns null yet has already advanced `next_page_id_` by
`num_instances` (the source calls `AllocatePage` before looking for a frame),
and every other component of the instance state is unchanged. -/
theorem new_page_failure_consumes_id (s : BPMI)
    (hf : s.free_list = []) (hr : s.replacer.lru = []) :
    s.NewPg = (none, { s with next_page_id := s.next_page_id + (s.num_instances : Int) }) := by
  simp [BPMI.NewPg, BPMI.AllocatePage, LRUReplacer.Victim, hf, hr]

/-- Witness for C10 at the concrete fully pinned single-frame state. -/
theorem new_page_failure_consumes_id_witness :
    BPMI.NewPg sNoVictim =
      (none, { sNoVictim with next_page_id := sNoVictim.next_page_id + (sNoVictim.num_instances : Int) }) :=
  new_page_failure_consumes_id sNoVictim (by decide) (by decide)

/-- C8. Counterexample to the claim as stated: with two shards at cursor 0,
the shard at the cursor full and shard 1 fresh, `new_page` succeeds (on shard
1), yet the stored cursor for the next call is 0 — not old cursor + 1 = 1 —
because the source bumps `next_instance_` once per attempted shard inside the
loop, not once per call. -/
theorem pbpm_cursor_counterexample :
    (PBPM.NewPg pCursor).1.isSome = true ∧
    (PBPM.NewPg pCursor).2.next_instance ≠ (pCursor.next_instance + 1) % pCursor.num_instances := by
  decide

/-- Helper: `List.getD` is unchanged by `List.set` at a different position. -/
theorem list_getD_set_ne {α : Type} :
    ∀ (l : List α) (pos i : Nat) (x d : α), i ≠ pos →
      (l.set pos x).getD i d = l.getD i d
  | [], _, _, _, _, _ => rfl
  | _ :: _, 0, 0, _, _, h => absurd rfl h
  | _ :: _, 0, _ + 1, _, _, _ => rfl
  | _ :: _, _ + 1, 0, _, _, _ => rfl
  | _ :: t, pos + 1, i + 1, x, d, h =>
      list_getD_set_ne t pos i x d (fun e => h (by rw [e]))

/-- Helper: the spec-side scan result ignores a `set` at a position the scan
never visits. -/
theorem scanResult_set_ne (x : BPMI) (pos : Nat) (insts : List BPMI) (N : Nat) :
    ∀ (fuel cur : Nat), (∀ j, j < fuel → (cur + j) % N ≠ pos) → cur < N →
      scanResult (insts.set pos x) N cur fuel = scanResult insts N cur fuel
  | 0, _, _, _ => rfl
  | fuel + 1, cur, h, hcur => by
      have h0 : cur ≠ pos := by
        have h00 := h 0 (Nat.succ_pos fuel)
        simpa [Nat.mod_eq_of_lt hcur] using h00
      have hget := list_getD_set_ne insts pos cur x defaultBPMI h0
      have hN : 0 < N := Nat.lt_of_le_of_lt (Nat.zero_le cur) hcur
      have hcur1 : (cur + 1) % N < N := Nat.mod_lt _ hN
      have h1 : ∀ j, j < fuel → ((cur + 1) % N + j) % N ≠ pos := by
        intro j hj
        have e1 : ((cur + 1) % N + j) % N = (cur + 1 + j) % N := Nat.mod_add_mod _ _ _
        have e2 : cur + 1 + j = cur + (1 + j) := by ring
        rw [e1, e2]
        exact h (1 + j) (by omega)
      simp only [scanResult, hget]
      cases hres : ((insts.getD cur defaultBPMI).NewPg).1 with
      | some r => rfl
      | none => exact scanResult_set_ne x pos insts N fuel ((cur + 1) % N) h1 hcur1

/-- Helper: the spec-side attempt count ignores a `set` at a position the scan
never visits. -/
theorem scanAttempts_set_ne (x : BPMI) (pos : Nat) (insts : List BPMI) (N : Nat) :
    ∀ (fuel cur : Nat), (∀ j, j < fuel → (cur + j) % N ≠ pos) → cur < N →
      scanAttempts (insts.set pos x) N cur fuel = scanAttempts insts N cur fuel
  | 0, _, _, _ => rfl
  | fuel + 1, cur, h, hcur => by
      have h0 : cur ≠ pos := by
        have h00 := h 0 (Nat.succ_pos fuel)
        simpa [Nat.mod_eq_of_lt hcur] using h00
      have hget := list_getD_set_ne insts pos cur x defaultBPMI h0
      have hN : 0 < N := Nat.lt_of_le_of_lt (Nat.zero_le cur) hcur
      have hcur1 : (cur + 1) % N < N := Nat.mod_lt _ hN
      have h1 : ∀ j, j < fuel → ((cur + 1) % N + j) % N ≠ pos := by
        intro j hj
        have e1 : ((cur + 1) % N + j) % N = (cur + 1 + j) % N := Nat.mod_add_mod _ _ _
        have e2 : cur + 1 + j = cur + (1 + j) := by ring
        rw [e1, e2]
        exact h (1 + j) (by omega)
      simp only [scanAttempts, hget]
      cases hres : ((insts.getD cur defaultBPMI).NewPg).1 with
      | some r => rfl
      | none =>
          rw [scanAttempts_set_ne x pos insts N fuel ((cur + 1) % N) h1 hcur1]

/-- Helper: within one `new_page` call (at most N iterations from a cursor
below N), positions visited after the first step never revisit the first
position. -/
theorem visited_ne_first (N cur fuel : Nat) (hcur : cur < N) (hfuel : fuel + 1 ≤ N) :
    ∀ j, j < fuel → ((cur + 1) % N + j) % N ≠ cur := by
  intro j hj heq
  have e1 : ((cur + 1) % N + j) % N = (cur + 1 + j) % N := Nat.mod_add_mod _ _ _
  have e2 : cur + 1 + j = cur + (j + 1) := by ring
  have hmod : (cur + (j + 1)) % N = cur % N := by
    rw [← e2, ← e1, heq, Nat.mod_eq_of_lt hcur]
  have hmodeq : Nat.ModEq N cur (cur + (j + 1)) := hmod.symm
  have hdvd : N ∣ (cur + (j + 1)) - cur :=
    (Nat.modEq_iff_dvd' (Nat.le_add_right cur (j + 1))).mp hmodeq
  rw [Nat.add_sub_cancel_left] at hdvd
  have hle : N ≤ j + 1 := Nat.le_of_dvd (Nat.succ_pos j) hdvd
  omega

/-- Helper: the loop of `ParallelBufferPoolManager::NewPgImp` returns the
first successful shard's result scanning from the cursor, and its final cursor
is the starting cursor plus the number of shards tried, mod N. -/
theorem newPgLoop_spec :
    ∀ (fuel : Nat) (p : PBPM),
      p.next_instance < p.num_instances → fuel ≤ p.num_instances →
      (p.newPgLoop fuel).1 = scanResult p.instances p.num_instances p.next_instance fuel ∧
      (p.newPgLoop fuel).2.next_instance =
        (p.next_instance + scanAttempts p.instances p.num_instances p.next_instance fuel) %
          p.num_instances
  | 0, p, hcur, _ => by
      refine ⟨rfl, ?_⟩
      simp [PBPM.newPgLoop, scanAttempts, Nat.mod_eq_of_lt hcur]
  | fuel + 1, p, hcur, hfuel => by
      have hN : 0 < p.num_instances := Nat.lt_of_le_of_lt (Nat.zero_le _) hcur
      simp only [PBPM.newPgLoop, scanResult, scanAttempts]
      cases hres : ((p.instances.getD p.next_instance defaultBPMI).NewPg).1 with
      | some r =>
          simp only [hres]
          exact ⟨trivial, trivial⟩
      | none =>
          simp only [hres]
          have hvis := visited_ne_first p.num_instances p.next_instance fuel hcur hfuel
          have hcur1 : (p.next_instance + 1) % p.num_instances < p.num_instances :=
            Nat.mod_lt _ hN
          have ih := newPgLoop_spec fuel
            { p with
                instances := p.instances.set p.next_instance
                  ((p.instances.getD p.next_instance defaultBPMI).NewPg).2,
                next_instance := (p.next_instance + 1) % p.num_instances }
            hcur1 (by show fuel ≤ p.num_instances; omega)
          rcases ih with ⟨ih1, ih2⟩
          simp only at ih1 ih2
          rw [scanResult_set_ne _ _ _ _ fuel _ hvis hcur1] at ih1
          rw [scanAttempts_set_ne _ _ _ _ fuel _ hvis hcur1] at ih2
          refine ⟨ih1, ?_⟩
          rw [ih2, Nat.mod_add_mod,
            show p.next_instance + 1 +
                scanAttempts p.instances p.num_instances
                  ((p.next_instance + 1) % p.num_instances) fuel =
              p.next_instance +
                (1 + scanAttempts p.instances p.num_instances
                  ((p.next_instance + 1) % p.num_instances) fuel) by ring]

/-- C8 (amended): `new_page` on the parallel pool tries the shards in the
order cursor, cursor+1, …, cursor+N−1 (mod N), returning the first success
(`scanResult`), and the cursor stored for the next call equals the old cursor
plus the number of shards tried (`scanAttempts`) mod N — one per attempt, so
old+1 exactly when the first tried shard succeeds, and old+N ≡ old when all
fail — not old+1 unconditionally. -/
theorem pbpm_new_page_amended (p : PBPM) (hcur : p.next_instance < p.num_instances) :
    (PBPM.NewPg p).1 = scanResult p.instances p.num_instances p.next_instance p.num_instances ∧
    (PBPM.NewPg p).2.next_instance =
      (p.next_instance + scanAttempts p.instances p.num_instances p.next_instance p.num_instances) %
        p.num_instances :=
  newPgLoop_spec p.num_instances p hcur (le_refl _)

/-- Witness for C8's amended theorem at the fresh two-shard pool. -/
theorem pbpm_new_page_amended_witness :
    (PBPM.NewPg pFresh).1 =
      scanResult pFresh.instances pFresh.num_instances pFresh.next_instance pFresh.num_instances ∧
    (PBPM.NewPg pFresh).2.next_instance =
      (pFresh.next_instance +
        scanAttempts pFresh.instances pFresh.num_instances pFresh.next_instance
          pFresh.num_instances) % pFresh.num_instances :=
  pbpm_new_page_amended pFresh (by decide)

end BusTub
